import Mathlib

/-!
Verification of the safe host-resource loader of the micorreact repository
(`hostLoader` module): the retrying dynamic-import wrapper
`safeImportHostModule`, the memoizing store/utils loaders produced by
`createSafeStoreLoader` / `createSafeUtilsLoader`, and the minimal fallback
Redux-style store (`createStore`, `fallbackReducer`) they degrade to.

The JavaScript source is embedded shallowly:

* The outcome of each dynamic `import()` attempt is an environment
  `env : Nat → ImportOutcome` mapping the index of the overall attempt to
  either a thrown error or a resolved module.  A resolved module is a
  `HostModule`: an object identity together with the truthiness and identity
  of its `default` export.
* `async` code that can throw is embedded in `Except String`; the
  `try`/`catch` blocks of the source become the corresponding `match` on the
  `Except` value.  Fixed timer delays (`setTimeout`) are accounted for as
  accumulated milliseconds, not real time.
* The module-scoped mutable variables of `createSafeStoreLoader`
  (`store`, `storePromise`, `fallbackStore`) become explicit state records
  so that memoization across calls is observable;
  one record (`SLoader`) models complete awaited calls (after the `finally`
  has cleared `storePromise`), the other (`CLoader`) models the synchronous
  prefix of a call, so that promise-coalescing of concurrent callers is
  observable.
* The fallback store built by `createStore` keeps its listener list and, in
  place of calling listeners, appends their identifiers to a call log, so
  that invocation counts are provable.  Listeners themselves are modelled as
  non-throwing.
-/

namespace Micorreact

/-- Module value resolved by a dynamic import: `id` is the identity of the
module namespace object (always truthy in JS), `dflt` is `some d` when the
module has a truthy `default` export with identity `d`, and `none` when the
`default` export is absent or falsy. -/
structure HostModule where
  id : Nat
  dflt : Option Nat
deriving DecidableEq

/-- Outcome of one `import()` attempt: the promise either rejects (the
`await` throws an error with a message) or resolves to a module. -/
inductive ImportOutcome where
  | throws (msg : String)
  | resolves (m : HostModule)
deriving DecidableEq

/-- Return value of `safeImportHostModule`:
`{ success, module, error }` as built at its two `return` sites. -/
structure ImportResult where
  success : Bool
  module : Option HostModule
  error : Option String
deriving DecidableEq

/-- Body of the `for (let i = 0; i < retries; i++)` loop of
`safeImportHostModule`, by structural recursion on the remaining loop
iterations (`fuel`, initially `retries`, so the `fuel = 0` case coincides
with the loop condition failing).  Returns the function result
(`none` models the `undefined` a caller would see if the loop exited without
returning, which happens only for `retries = 0`), the number of import
attempts performed, and the total milliseconds spent in the inter-attempt
`setTimeout` waits. -/
def safeImportGo (env : Nat → ImportOutcome) (retries delay : Nat) :
    Nat → Nat → Option ImportResult × Nat × Nat
  | _, 0 => (none, 0, 0)
  | i, fuel + 1 =>
    if i < retries then
      match env i with
      | ImportOutcome.resolves m => (some ⟨true, some m, none⟩, 1, 0)
      | ImportOutcome.throws msg =>
        if i < retries - 1 then
          let r := safeImportGo env retries delay (i + 1) fuel
          (r.1, r.2.1 + 1, r.2.2 + delay)
        else
          (some ⟨false, none, some msg⟩, 1, 0)
    else (none, 0, 0)

/-- JS `safeImportHostModule(modulePath, retries = 3, delay = 1000)`.  The
`modulePath` only selects which import expression runs; the behaviour of
the import itself is the environment `env`, so the path is not a parameter
of the embedding. -/
def safeImportHostModule (env : Nat → ImportOutcome) (retries delay : Nat) :
    Option ImportResult × Nat × Nat :=
  safeImportGo env retries delay 0 retries

/-- Value a settled `loadStore()` promise carries: the `default` export of
the host module (the real host store, which per the Module Federation
contract exposes `getState`/`dispatch`/`subscribe`), or the memoized
fallback store built by `createFallbackStore` (a single object, so a single
constructor). -/
inductive StoreValue where
  | host (id : Nat)
  | fallback
deriving DecidableEq

/-- Shape check performed by `loadStore` on the import result:
`result.success && result.module && result.module.default`; returns the
identity of the `default` export when the check passes. -/
def storeShapeOk (r : ImportResult) : Option Nat :=
  if r.success then r.module.bind HostModule.dflt else none

/-- Body of the `try` block of the async IIFE inside `loadStore` (fresh
resolution): await `safeImportHostModule('host/store', 3, 1000)`, then either
adopt `result.module.default` or return `createFallbackStore()`.  An
`Except.error` is a thrown error inside the block (reachable only if
the import helper returned `undefined`, i.e. `retries = 0`). -/
def loadStoreBody (env : Nat → ImportOutcome) : Except String StoreValue :=
  match (safeImportHostModule env 3 1000).1 with
  | some r =>
    match storeShapeOk r with
    | some d => Except.ok (StoreValue.host d)
    | none => Except.ok StoreValue.fallback
  | none => Except.error "TypeError: cannot read properties of undefined"

/-- The async IIFE of `loadStore` including its `catch` block, which turns
any thrown error into `return createFallbackStore()`.  This is the value the
returned promise settles with. -/
def loadStoreSettle (env : Nat → ImportOutcome) : Except String StoreValue :=
  match loadStoreBody env with
  | Except.ok v => Except.ok v
  | Except.error _ => Except.ok StoreValue.fallback

/-- Value a settled `loadUtils()` promise carries:
`result.module.default || result.module` on success, or the fixed
`fallbackUtils` object. -/
inductive UtilsValue where
  | hostDefault (id : Nat)
  | hostModule (id : Nat)
  | fallbackUtils
deriving DecidableEq

/-- Body of the `try` block of the async IIFE inside `loadUtils`: the shape
check is only `result.success && result.module`, and the adopted value is
`result.module.default || result.module`. -/
def loadUtilsBody (env : Nat → ImportOutcome) : Except String UtilsValue :=
  match (safeImportHostModule env 3 1000).1 with
  | some r =>
    if r.success then
      match r.module with
      | some m =>
        match m.dflt with
        | some d => Except.ok (UtilsValue.hostDefault d)
        | none => Except.ok (UtilsValue.hostModule m.id)
      | none => Except.ok UtilsValue.fallbackUtils
    else Except.ok UtilsValue.fallbackUtils
  | none => Except.error "TypeError: cannot read properties of undefined"

/-- The async IIFE of `loadUtils` including its `catch` block. -/
def loadUtilsSettle (env : Nat → ImportOutcome) : Except String UtilsValue :=
  match loadUtilsBody env with
  | Except.ok v => Except.ok v
  | Except.error _ => Except.ok UtilsValue.fallbackUtils

/-- State of one `createSafeStoreLoader()` instance between complete awaited
`loadStore()` calls: `store` is the memoized host store (assigned only on
the success branch of the source), `fallbackCreated` records whether
`createFallbackStore` has memoized its object, and `importCount` counts
the import attempts performed so far (it indexes the environment, so successive
acquisition sequences consume successive attempt outcomes).  `storePromise`
is absent because the `finally` block has set it back to `null` by the time
a call is awaited. -/
structure SLoader where
  store : Option Nat
  fallbackCreated : Bool
  importCount : Nat
deriving DecidableEq

/-- Loader state at process start. -/
def initLoader : SLoader := ⟨none, false, 0⟩

/-- One complete awaited `loadStore()` call: return the memoized `store` if
set, otherwise run the async body to settlement and update the state
(memoize `store` only on the success branch, exactly as the source does). -/
def loadStoreAwait (env : Nat → ImportOutcome) (L : SLoader) :
    StoreValue × SLoader :=
  match L.store with
  | some s => (StoreValue.host s, L)
  | none =>
    let r := safeImportHostModule (fun i => env (L.importCount + i)) 3 1000
    let L1 : SLoader := { L with importCount := L.importCount + r.2.1 }
    match r.1 with
    | some res =>
      match storeShapeOk res with
      | some d => (StoreValue.host d, { L1 with store := some d })
      | none => (StoreValue.fallback, { L1 with fallbackCreated := true })
    | none => (StoreValue.fallback, { L1 with fallbackCreated := true })

/-- JS `getStore: () => store` of `createSafeStoreLoader`. -/
def getStore (L : SLoader) : Option StoreValue := L.store.map StoreValue.host

/-- JS `isStoreLoaded: () => store !== null` of `createSafeStoreLoader`. -/
def isStoreLoaded (L : SLoader) : Bool := L.store.isSome

/-- What a synchronous `loadStore()` call hands back to its caller: either an
already-settled value (the memoized store wrapped by `async`) or a pending
promise identified by its sequence number. -/
inductive CallResult where
  | immediate (v : StoreValue)
  | pending (seq : Nat)
deriving DecidableEq

/-- Loader state as seen between the synchronous prefixes of `loadStore()`
calls on the event loop: `pending` is `some p` exactly while `storePromise`
holds the promise of the in-flight acquisition sequence `p`, and `nextSeq`
numbers the acquisition sequences ever started. -/
structure CLoader where
  store : Option Nat
  pending : Option Nat
  nextSeq : Nat
deriving DecidableEq

/-- Synchronous prefix of `loadStore()`: `if (store) return store;` then
`if (storePromise) return storePromise;` then assign a fresh promise to
`storePromise` and return it.  No import attempt happens in this prefix; the
attempts run when the pending sequence is resolved (`loadStoreSettle`). -/
def loadStoreCall (L : CLoader) : CallResult × CLoader :=
  match L.store with
  | some s => (CallResult.immediate (StoreValue.host s), L)
  | none =>
    match L.pending with
    | some p => (CallResult.pending p, L)
    | none =>
      (CallResult.pending L.nextSeq,
       { L with pending := some L.nextSeq, nextSeq := L.nextSeq + 1 })

/-- Iterate the synchronous prefix of `loadStore()` over `n` successive
callers, collecting what each caller receives. -/
def callN : Nat → CLoader → List CallResult × CLoader
  | 0, L => ([], L)
  | n + 1, L =>
    let r := loadStoreCall L
    let rest := callN n r.2
    (r.1 :: rest.1, rest.2)

/-- Payload of the `ADD_TO_CART` action: `{ id, name, price }`.  Every
action of interest either carries such a payload or has a type the reducer
never matches, so the payload is modelled as always present. -/
structure Payload where
  id : Int
  name : String
  price : Int
deriving DecidableEq

/-- Cart line item: the spread payload plus a `quantity` field. -/
structure Item where
  id : Int
  name : String
  price : Int
  quantity : Nat
deriving DecidableEq

/-- Cart slice `{ items, total, itemCount }`. -/
structure Cart where
  items : List Item
  total : Int
  itemCount : Nat
deriving DecidableEq

/-- User slice of the reducer default state
(`{ user: null, preferences: \x7b\x7d, isAuthenticated: false }`; the empty
`preferences` object is never read and is omitted). -/
structure UserSlice where
  user : Option Nat
  isAuthenticated : Bool
deriving DecidableEq

/-- Full shape of the fallback reducer default state. -/
structure AppState where
  cart : Cart
  user : UserSlice
deriving DecidableEq

/-- Redux-style action `{ type, payload }`. -/
structure Action where
  type : String
  payload : Payload
deriving DecidableEq

/-- JS `newItems.reduce((sum, item) => sum + item.price * item.quantity, 0)`. -/
def cartTotal (items : List Item) : Int :=
  items.foldl (fun sum item => sum + item.price * (item.quantity : Int)) 0

/-- JS `newItems.reduce((sum, item) => sum + item.quantity, 0)`. -/
def cartItemCount (items : List Item) : Nat :=
  items.foldl (fun sum item => sum + item.quantity) 0

/-- Default value of the `state` parameter of `fallbackReducer`
(dead in the source: `createStore` passes `{}` rather than `undefined`). -/
def initialFallbackState : AppState :=
  { cart := { items := [], total := 0, itemCount := 0 },
    user := { user := none, isAuthenticated := false } }

/-- JS `fallbackReducer` applied to a state that does have the expected
shape: on `ADD_TO_CART`, increment the quantity of the matching item or
append the payload with quantity 1, and recompute `total` and `itemCount`
from the new item list; any other action type returns the state unchanged. -/
def fallbackReducer (state : AppState) (action : Action) : AppState :=
  if action.type = "ADD_TO_CART" then
    let existing := state.cart.items.find? (fun item => item.id == action.payload.id)
    let newItems :=
      match existing with
      | some _ =>
        state.cart.items.map (fun item =>
          if item.id == action.payload.id then
            { item with quantity := item.quantity + 1 }
          else item)
      | none =>
        state.cart.items ++
          [{ id := action.payload.id, name := action.payload.name,
             price := action.payload.price, quantity := 1 }]
    { state with
      cart := { items := newItems, total := cartTotal newItems,
                itemCount := cartItemCount newItems } }
  else state

/-- State actually held by the fallback store: `createStore` defaults its
`initialState` parameter to the empty object `\x7b\x7d`, so the store state is
either that empty object or a properly shaped `AppState`. -/
inductive JState where
  | emptyObj
  | app (s : AppState)
deriving DecidableEq

/-- JS `fallbackReducer` on the store state, with `none` modelling a thrown
`TypeError`: on the empty object, the `ADD_TO_CART` branch evaluates
`state.cart.items` with `state.cart` undefined and throws; every other
action type returns the state unchanged; on a properly shaped state the pure
reducer above applies. -/
def fallbackReducerJS : JState → Action → Option JState
  | JState.emptyObj, a =>
    if a.type = "ADD_TO_CART" then none else some JState.emptyObj
  | JState.app s, a => some (JState.app (fallbackReducer s a))

/-- Store object built by `createStore(reducer, initialState = \x7b\x7d)`:
the captured `state`, the `listeners` array (listener identities in
subscription order), and a log of listener invocations (identity appended
each time the listener is called). -/
structure FStore (σ : Type) where
  state : σ
  listeners : List Nat
  callLog : List Nat
deriving DecidableEq

/-- JS `dispatch(action)`: `try { state = reducer(state, action);
listeners.forEach(l => l()); return action } catch { log; return action }`.
When the reducer throws (`none`), the assignment to `state` has not
happened, no listener is called, and the action is still returned. -/
def FStore.dispatch (red : σ → Action → Option σ) (st : FStore σ)
    (a : Action) : FStore σ × Action :=
  match red st.state a with
  | some s1 => ({ st with state := s1, callLog := st.callLog ++ st.listeners }, a)
  | none => (st, a)

/-- JS `subscribe(listener)`: push the listener onto the array. -/
def FStore.subscribe (st : FStore σ) (lid : Nat) : FStore σ :=
  { st with listeners := st.listeners ++ [lid] }

/-- The unsubscribe closure returned by `subscribe`: `indexOf` + `splice`,
i.e. remove the first occurrence of the listener if present. -/
def FStore.unsubscribe (st : FStore σ) (lid : Nat) : FStore σ :=
  { st with listeners := st.listeners.erase lid }

/-- The fallback store as `createFallbackStore` builds it:
`createStore(fallbackReducer)` with the defaulted initial state `\x7b\x7d`. -/
def freshFallbackStore : FStore JState := ⟨JState.emptyObj, [], []⟩

/-- Import environment in which every attempt rejects (the import source is
unavailable). -/
def envAllThrow : Nat → ImportOutcome :=
  fun _ => ImportOutcome.throws "Network error"

/-- Module namespace object with no `default` export (the `\x7b\x7d` module of
the shape-validation scenario). -/
def emptyModule : HostModule := ⟨0, none⟩

/-- Import environment in which every attempt resolves, but to a module with
no `default` export. -/
def envEmptyModule : Nat → ImportOutcome :=
  fun _ => ImportOutcome.resolves emptyModule

/-- Import environment in which the first three attempts reject and every
later attempt resolves to a module whose `default` export is the host store
`7`. -/
def envLateStore : Nat → ImportOutcome :=
  fun i =>
    if i < 3 then ImportOutcome.throws "Network error"
    else ImportOutcome.resolves ⟨1, some 7⟩

/-- The concrete `ADD_TO_CART` action of the spec scenarios. -/
def addX : Action := ⟨"ADD_TO_CART", ⟨1, "X", 10⟩⟩

/-- An action whose type the fallback reducer does not match. -/
def otherAct : Action := ⟨"PING", ⟨0, "", 0⟩⟩

/-! ## Helper lemmas -/

/-- When every attempt of an environment throws, `safeImportHostModule` with
the default arguments performs three attempts, two 1000 ms waits, and
returns the failure record carrying the message of the last attempt. -/
theorem safeImport_exhausts (env : Nat → ImportOutcome)
    (h : ∀ i, ∃ m, env i = ImportOutcome.throws m) :
    ∃ m, safeImportHostModule env 3 1000 =
      (some ⟨false, none, some m⟩, 3, 2000) := by
  obtain ⟨m0, h0⟩ := h 0
  obtain ⟨m1, h1⟩ := h 1
  obtain ⟨m2, h2⟩ := h 2
  exact ⟨m2, by simp [safeImportHostModule, safeImportGo, h0, h1, h2]⟩

/-- With the default retry ceiling, at least one import attempt is always
performed. -/
theorem safeImport_attempts_pos (env : Nat → ImportOutcome) :
    1 ≤ (safeImportHostModule env 3 1000).2.1 := by
  cases h0 : env 0 <;>
    simp [safeImportHostModule, safeImportGo, h0]

/-- With the default retry ceiling, at most three import attempts are
performed. -/
theorem safeImport_attempts_le (env : Nat → ImportOutcome) :
    (safeImportHostModule env 3 1000).2.1 ≤ 3 := by
  cases h0 : env 0 <;> cases h1 : env 1 <;> cases h2 : env 2 <;>
    simp [safeImportHostModule, safeImportGo, h0, h1, h2]

/-- Complete awaited `loadStore()` call under an import source that always
throws: the call settles on the fallback, the host store stays unmemoized,
and three more attempt outcomes are consumed. -/
theorem loadStoreAwait_all_throw (env : Nat → ImportOutcome) (L : SLoader)
    (hL : L.store = none) (h : ∀ i, ∃ m, env i = ImportOutcome.throws m) :
    loadStoreAwait env L =
      (StoreValue.fallback, ⟨none, true, L.importCount + 3⟩) := by
  obtain ⟨m, hm⟩ := safeImport_exhausts (fun i => env (L.importCount + i))
    (fun i => h (L.importCount + i))
  simp [loadStoreAwait, hL, hm, storeShapeOk]

/-- The total import-attempt count after an unmemoized awaited call is the
previous count plus the attempts of the one sequence the call ran. -/
theorem loadStoreAwait_importCount (env : Nat → ImportOutcome) (L : SLoader)
    (hL : L.store = none) :
    (loadStoreAwait env L).2.importCount =
      L.importCount +
        (safeImportHostModule (fun i => env (L.importCount + i)) 3 1000).2.1 := by
  simp only [loadStoreAwait, hL]
  rcases safeImportHostModule (fun i => env (L.importCount + i)) 3 1000 with ⟨o, n, d⟩
  cases o with
  | none => rfl
  | some r => cases h2 : storeShapeOk r <;> simp [h2]

/-! ## Claim theorems -/

/-- C1: for every behaviour of the underlying import — success on some
attempt, a thrown error on every attempt, or a structurally invalid module —
the promise returned by `loadStore()` settles with `Except.ok` (never an
error), and the value it fulfills with is the real host store or the
fallback store (each of which exposes `getState`/`dispatch`/`subscribe`);
likewise `loadUtils()` always fulfills with the host utils or the fallback
bundle; and a memoized awaited call also always produces a
host-or-fallback value. -/
theorem loadStore_loadUtils_always_fulfill :
    (∀ env : Nat → ImportOutcome, ∃ v, loadStoreSettle env = Except.ok v ∧
      (v = StoreValue.fallback ∨ ∃ i, v = StoreValue.host i)) ∧
    (∀ env : Nat → ImportOutcome, ∃ u, loadUtilsSettle env = Except.ok u ∧
      (u = UtilsValue.fallbackUtils ∨ (∃ i, u = UtilsValue.hostDefault i) ∨
        ∃ i, u = UtilsValue.hostModule i)) ∧
    (∀ (env : Nat → ImportOutcome) (L : SLoader),
      (loadStoreAwait env L).1 = StoreValue.fallback ∨
        ∃ i, (loadStoreAwait env L).1 = StoreValue.host i) := by
  refine ⟨?_, ?_, ?_⟩
  · intro env
    cases h : (safeImportHostModule env 3 1000).1 with
    | none =>
      exact ⟨StoreValue.fallback,
        by simp [loadStoreSettle, loadStoreBody, h], Or.inl rfl⟩
    | some r =>
      cases h2 : storeShapeOk r with
      | none =>
        exact ⟨StoreValue.fallback,
          by simp [loadStoreSettle, loadStoreBody, h, h2], Or.inl rfl⟩
      | some d =>
        exact ⟨StoreValue.host d,
          by simp [loadStoreSettle, loadStoreBody, h, h2], Or.inr ⟨d, rfl⟩⟩
  · intro env
    cases h : (safeImportHostModule env 3 1000).1 with
    | none =>
      exact ⟨UtilsValue.fallbackUtils,
        by simp [loadUtilsSettle, loadUtilsBody, h], Or.inl rfl⟩
    | some r =>
      by_cases hs : r.success
      · cases hm : r.module with
        | none =>
          exact ⟨UtilsValue.fallbackUtils,
            by simp [loadUtilsSettle, loadUtilsBody, h, hs, hm], Or.inl rfl⟩
        | some m =>
          cases hd : m.dflt with
          | none =>
            exact ⟨UtilsValue.hostModule m.id,
              by simp [loadUtilsSettle, loadUtilsBody, h, hs, hm, hd],
              Or.inr (Or.inr ⟨m.id, rfl⟩)⟩
          | some d =>
            exact ⟨UtilsValue.hostDefault d,
              by simp [loadUtilsSettle, loadUtilsBody, h, hs, hm, hd],
              Or.inr (Or.inl ⟨d, rfl⟩)⟩
      · exact ⟨UtilsValue.fallbackUtils,
          by simp [loadUtilsSettle, loadUtilsBody, h, hs], Or.inl rfl⟩
  · intro env L
    cases hL : L.store with
    | some s => exact Or.inr ⟨s, by simp [loadStoreAwait, hL]⟩
    | none =>
      cases hres :
          (safeImportHostModule (fun i => env (L.importCount + i)) 3 1000).1 with
      | none => exact Or.inl (by simp [loadStoreAwait, hL, hres])
      | some r =>
        cases h2 : storeShapeOk r with
        | none => exact Or.inl (by simp [loadStoreAwait, hL, hres, h2])
        | some d => exact Or.inr ⟨d, by simp [loadStoreAwait, hL, hres, h2]⟩

/-- C2 counterexample: with the import source unavailable (every attempt
throws), after the first awaited `loadStore()` the loader is not in the
claimed resolved state: the promise does resolve to the fallback, but
`isStoreLoaded()` returns false, `getStore()` returns null, and a second
awaited call silently restarts resolution, consuming three further import
attempts (six in total). -/
theorem loadStore_fallback_not_resolved_cex :
    (loadStoreAwait envAllThrow initLoader).1 = StoreValue.fallback ∧
    isStoreLoaded (loadStoreAwait envAllThrow initLoader).2 = false ∧
    getStore (loadStoreAwait envAllThrow initLoader).2 = none ∧
    (loadStoreAwait envAllThrow
      (loadStoreAwait envAllThrow initLoader).2).2.importCount = 6 := by
  decide

/-- C2 amended: with the import source unavailable, `await loadStore()`
resolves to the fallback store (non-null, and later failing resolutions
return the same memoized fallback object), but the loader does not enter
the resolved state: `isStoreLoaded()` returns false, `getStore()` returns
null, and a later `loadStore()` call restarts the acquisition sequence
(three further import attempts). -/
theorem loadStore_fallback_degraded_resolution (env : Nat → ImportOutcome)
    (h : ∀ i, ∃ m, env i = ImportOutcome.throws m) :
    (loadStoreAwait env initLoader).1 = StoreValue.fallback ∧
    (loadStoreAwait env initLoader).2.fallbackCreated = true ∧
    isStoreLoaded (loadStoreAwait env initLoader).2 = false ∧
    getStore (loadStoreAwait env initLoader).2 = none ∧
    (loadStoreAwait env (loadStoreAwait env initLoader).2).1 =
      StoreValue.fallback ∧
    (loadStoreAwait env
      (loadStoreAwait env initLoader).2).2.importCount = 6 := by
  have e1 := loadStoreAwait_all_throw env ⟨none, false, 0⟩ rfl h
  have e2 := loadStoreAwait_all_throw env ⟨none, true, 3⟩ rfl h
  simp only [initLoader]
  simp only [show (SLoader.mk none false 0).importCount + 3 = 3 from rfl] at e1
  simp only [show (SLoader.mk none true 3).importCount + 3 = 6 from rfl] at e2
  refine ⟨?_, ?_, ?_, ?_, ?_, ?_⟩ <;>
    simp [e1, e2, isStoreLoaded, getStore]

/-- C2 witness for the amended statement: the concrete all-throwing
environment. -/
theorem loadStore_fallback_degraded_resolution_witness :
    (loadStoreAwait envAllThrow initLoader).1 = StoreValue.fallback ∧
    (loadStoreAwait envAllThrow initLoader).2.fallbackCreated = true ∧
    isStoreLoaded (loadStoreAwait envAllThrow initLoader).2 = false ∧
    getStore (loadStoreAwait envAllThrow initLoader).2 = none ∧
    (loadStoreAwait envAllThrow (loadStoreAwait envAllThrow initLoader).2).1 =
      StoreValue.fallback ∧
    (loadStoreAwait envAllThrow
      (loadStoreAwait envAllThrow initLoader).2).2.importCount = 6 :=
  loadStore_fallback_degraded_resolution envAllThrow
    (fun _ => ⟨"Network error", rfl⟩)

/-- C3 counterexample: the first three attempts throw and the fourth
resolves to a valid host store.  The first awaited `loadStore()` resolves
to the fallback; a second awaited call re-runs acquisition (a fourth import
attempt is performed) and returns the host store — a different value from
the one the first call returned — falsifying both the identical-reference
part and the no-new-attempt part of the claim. -/
theorem loadStore_second_call_reacquires_cex :
    (loadStoreAwait envLateStore initLoader).1 = StoreValue.fallback ∧
    (loadStoreAwait envLateStore
      (loadStoreAwait envLateStore initLoader).2).1 = StoreValue.host 7 ∧
    (loadStoreAwait envLateStore
        (loadStoreAwait envLateStore initLoader).2).1 ≠
      (loadStoreAwait envLateStore initLoader).1 ∧
    (loadStoreAwait envLateStore
      (loadStoreAwait envLateStore initLoader).2).2.importCount = 4 := by
  decide

/-- C3 amended: once a call has resolved with the real host store, every
later `loadStore()` call returns that identical memoized value and performs
no new import attempt (the loader state is unchanged); after a fallback
resolution, however, the host slot is still empty, so a later call does
re-attempt acquisition (its import-attempt count strictly grows), and it
returns the same memoized fallback object only because the new sequence
also fails. -/
theorem loadStore_memoization_semantics :
    (∀ (env : Nat → ImportOutcome) (L : SLoader) (i : Nat),
      L.store = some i → loadStoreAwait env L = (StoreValue.host i, L)) ∧
    (∀ (env : Nat → ImportOutcome) (L : SLoader), L.store = none →
      L.importCount < (loadStoreAwait env L).2.importCount) ∧
    (∀ (env : Nat → ImportOutcome) (L : SLoader), L.store = none →
      (∀ i, ∃ m, env i = ImportOutcome.throws m) →
      (loadStoreAwait env L).1 = StoreValue.fallback) := by
  refine ⟨?_, ?_, ?_⟩
  · intro env L i hL
    simp [loadStoreAwait, hL]
  · intro env L hL
    have h1 := safeImport_attempts_pos (fun i => env (L.importCount + i))
    rw [loadStoreAwait_importCount env L hL]
    omega
  · intro env L hL h
    rw [loadStoreAwait_all_throw env L hL h]

/-- C3 witness for the amended statement: a loader with host store `5`
memoized returns it unchanged; on the fresh loader under the all-throwing
environment the attempt count grows and the result is the fallback. -/
theorem loadStore_memoization_semantics_witness :
    loadStoreAwait envAllThrow ⟨some 5, false, 3⟩ =
      (StoreValue.host 5, ⟨some 5, false, 3⟩) ∧
    initLoader.importCount <
      (loadStoreAwait envAllThrow initLoader).2.importCount ∧
    (loadStoreAwait envAllThrow initLoader).1 = StoreValue.fallback :=
  ⟨loadStore_memoization_semantics.1 envAllThrow ⟨some 5, false, 3⟩ 5 rfl,
   loadStore_memoization_semantics.2.1 envAllThrow initLoader rfl,
   loadStore_memoization_semantics.2.2 envAllThrow initLoader rfl
     (fun _ => ⟨"Network error", rfl⟩)⟩

/-- C4: if every import attempt throws, the loader performs exactly three
attempts at the import, with the fixed 1000 ms delay between consecutive attempts
(exactly two delays, total waiting time (ceiling − 1) × delay), then
resolves to the fallback, and the returned promise settles with
`Except.ok` rather than rejecting. -/
theorem retry_ceiling_respected (env : Nat → ImportOutcome)
    (h : ∀ i, ∃ m, env i = ImportOutcome.throws m) :
    (safeImportHostModule env 3 1000).2.1 = 3 ∧
    (safeImportHostModule env 3 1000).2.2 = (3 - 1) * 1000 ∧
    loadStoreSettle env = Except.ok StoreValue.fallback := by
  obtain ⟨m, hm⟩ := safeImport_exhausts env h
  refine ⟨?_, ?_, ?_⟩
  · rw [hm]
  · rw [hm]
  · simp [loadStoreSettle, loadStoreBody, hm, storeShapeOk]

/-- C4 witness: the all-throwing environment satisfies the hypothesis and
exhibits the three attempts, the two delays and the fallback resolution. -/
theorem retry_ceiling_respected_witness :
    (safeImportHostModule envAllThrow 3 1000).2.1 = 3 ∧
    (safeImportHostModule envAllThrow 3 1000).2.2 = (3 - 1) * 1000 ∧
    loadStoreSettle envAllThrow = Except.ok StoreValue.fallback :=
  retry_ceiling_respected envAllThrow (fun _ => ⟨"Network error", rfl⟩)

/-- C5 counterexample: an import attempt that resolves to a module without
a `default` export is not retried: `safeImportHostModule` reports success
after a single attempt with zero delay — not the three attempts the claim
requires — and `loadStore` settles on the fallback without any retry
sequence. -/
theorem shape_mismatch_no_retry_cex :
    (safeImportHostModule envEmptyModule 3 1000).2.1 = 1 ∧
    (safeImportHostModule envEmptyModule 3 1000).2.1 ≠ 3 ∧
    (safeImportHostModule envEmptyModule 3 1000).2.2 = 0 ∧
    (safeImportHostModule envEmptyModule 3 1000).1 =
      some ⟨true, some emptyModule, none⟩ ∧
    loadStoreSettle envEmptyModule = Except.ok StoreValue.fallback :=
  ⟨by decide, by decide, by decide, by decide, rfl⟩

/-- C5 amended: an import that resolves with a structurally invalid value
is treated as a success by the retry loop — one attempt, no delay, no
retries; only the shape check in `loadStore` then routes it to the same
final fallback value that exhaustion produces. -/
theorem shape_mismatch_immediate_fallback (env : Nat → ImportOutcome)
    (m : HostModule) (h0 : env 0 = ImportOutcome.resolves m)
    (hd : m.dflt = none) :
    safeImportHostModule env 3 1000 = (some ⟨true, some m, none⟩, 1, 0) ∧
    loadStoreSettle env = Except.ok StoreValue.fallback := by
  have h1 : safeImportHostModule env 3 1000 =
      (some ⟨true, some m, none⟩, 1, 0) := by
    simp [safeImportHostModule, safeImportGo, h0]
  exact ⟨h1, by simp [loadStoreSettle, loadStoreBody, h1, storeShapeOk, hd]⟩

/-- C5 witness for the amended statement: the environment resolving to the
module `\x7b\x7d` on every attempt. -/
theorem shape_mismatch_immediate_fallback_witness :
    (envEmptyModule 0 = ImportOutcome.resolves emptyModule ∧
     emptyModule.dflt = none) ∧
    (safeImportHostModule envEmptyModule 3 1000 =
        (some ⟨true, some emptyModule, none⟩, 1, 0) ∧
     loadStoreSettle envEmptyModule = Except.ok StoreValue.fallback) :=
  ⟨⟨rfl, rfl⟩,
   shape_mismatch_immediate_fallback envEmptyModule emptyModule rfl rfl⟩

/-- C6: while the first `loadStore()` call is still in flight, any number N
of further calls all receive the same pending promise and leave the loader
state unchanged — no second acquisition sequence is started, so all N
callers await the one sequence and observe its one final value — and that
single sequence performs at most the retry ceiling of three import
attempts, independent of N. -/
theorem concurrent_calls_coalesce (N : Nat) (L : CLoader) (p : Nat)
    (hs : L.store = none) (hp : L.pending = some p)
    (env : Nat → ImportOutcome) :
    callN N L = (List.replicate N (CallResult.pending p), L) ∧
    (safeImportHostModule env 3 1000).2.1 ≤ 3 := by
  refine ⟨?_, safeImport_attempts_le env⟩
  induction N with
  | zero => simp [callN]
  | succ n ih => simp [callN, loadStoreCall, hs, hp, ih, List.replicate_succ]

/-- C6 witness: five callers against a loader whose first call is in
flight as sequence 0, under the all-throwing environment. -/
theorem concurrent_calls_coalesce_witness :
    ((⟨none, some 0, 1⟩ : CLoader).store = none ∧
     (⟨none, some 0, 1⟩ : CLoader).pending = some 0) ∧
    (callN 5 ⟨none, some 0, 1⟩ =
        (List.replicate 5 (CallResult.pending 0), ⟨none, some 0, 1⟩) ∧
     (safeImportHostModule envAllThrow 3 1000).2.1 ≤ 3) :=
  ⟨⟨rfl, rfl⟩,
   concurrent_calls_coalesce 5 ⟨none, some 0, 1⟩ 0 rfl rfl envAllThrow⟩

/-- C7 (code bug): on the fallback store as actually constructed —
`createStore(fallbackReducer)` defaults the initial state to the empty
object instead of passing `undefined`, so the reducer default state is
never used — dispatching the add-to-cart action with payload
`{id: 1, name: "X", price: 10}` makes the reducer throw (`state.cart` is
undefined), the error is caught, and the state stays the empty object, so
`getState()` has no `cart.items` of length 1.  The reducer applied from its
own (dead) default initial state yields exactly the claimed behaviour:
one entry with quantity 1 after one dispatch, and the same single entry
with quantity 2 after dispatching the same id again. -/
theorem fallback_store_add_to_cart_bug :
    (FStore.dispatch fallbackReducerJS freshFallbackStore addX).1.state =
      JState.emptyObj ∧
    fallbackReducerJS JState.emptyObj addX = none ∧
    (fallbackReducer initialFallbackState addX).cart.items =
      [{ id := 1, name := "X", price := 10, quantity := 1 }] ∧
    (fallbackReducer (fallbackReducer initialFallbackState addX) addX).cart.items =
      [{ id := 1, name := "X", price := 10, quantity := 2 }] := by
  decide

/-- C8: for a store built by `createStore`, subscribing a listener, then
one dispatch whose reducer application succeeds, then calling the returned
unsubscribe function, then dispatching again, leaves the listener invoked
exactly once in total. -/
theorem subscriber_called_exactly_once {σ : Type}
    (red : σ → Action → Option σ) (s0 s1 : σ) (a1 a2 : Action) (lid : Nat)
    (h : red s0 a1 = some s1) :
    ((FStore.dispatch red
        (FStore.unsubscribe
          (FStore.dispatch red (FStore.subscribe ⟨s0, [], []⟩ lid) a1).1 lid)
        a2).1).callLog.count lid = 1 := by
  cases h2 : red s1 a2 <;>
    simp [FStore.dispatch, FStore.subscribe, FStore.unsubscribe, h, h2]

/-- C8 witness: the concrete fallback store with a non-matching first
action satisfies the hypothesis, and the call log of the
subscribe/dispatch/unsubscribe/dispatch sequence holds exactly one
invocation of the listener. -/
theorem subscriber_called_exactly_once_witness :
    fallbackReducerJS JState.emptyObj otherAct = some JState.emptyObj ∧
    ((FStore.dispatch fallbackReducerJS
        (FStore.unsubscribe
          (FStore.dispatch fallbackReducerJS
            (FStore.subscribe ⟨JState.emptyObj, [], []⟩ 0) otherAct).1 0)
        addX).1).callLog.count 0 = 1 :=
  ⟨by decide,
   subscriber_called_exactly_once fallbackReducerJS JState.emptyObj
     JState.emptyObj otherAct addX 0 (by decide)⟩

/-- C9: dispatch is atomic on reducer error: whenever the reducer throws on
the current state and action, `dispatch` catches the error, leaves the
store (state snapshot, listener list and call log) unchanged, notifies no
subscriber, and still returns the dispatched action instead of throwing to
the caller. -/
theorem dispatch_atomic_on_reducer_error {σ : Type}
    (red : σ → Action → Option σ) (st : FStore σ) (a : Action)
    (h : red st.state a = none) :
    FStore.dispatch red st a = (st, a) := by
  simp [FStore.dispatch, h]

/-- C9 witness: the fresh fallback store with the add-to-cart action, on
which the reducer does throw. -/
theorem dispatch_atomic_on_reducer_error_witness :
    fallbackReducerJS freshFallbackStore.state addX = none ∧
    FStore.dispatch fallbackReducerJS freshFallbackStore addX =
      (freshFallbackStore, addX) :=
  ⟨by decide,
   dispatch_atomic_on_reducer_error fallbackReducerJS freshFallbackStore addX
     (by decide)⟩

/-- The cart-totals invariant: `total` and `itemCount` equal the sums the
reducer recomputes from the item list. -/
def cartInvariant (s : AppState) : Prop :=
  s.cart.total = cartTotal s.cart.items ∧
  s.cart.itemCount = cartItemCount s.cart.items

/-- One reducer step preserves the cart-totals invariant. -/
theorem fallbackReducer_preserves_cartInvariant (s : AppState) (a : Action)
    (h : cartInvariant s) : cartInvariant (fallbackReducer s a) := by
  by_cases ht : a.type = "ADD_TO_CART"
  · unfold fallbackReducer
    rw [if_pos ht]
    exact ⟨rfl, rfl⟩
  · unfold fallbackReducer
    rw [if_neg ht]
    exact h

/-- C10: starting from the fallback reducer default initial state, after
every sequence of dispatched actions the cart satisfies the totals
invariant — `total` is the sum over the items of price × quantity and
`itemCount` the sum of the quantities — and any action whose type is not
`ADD_TO_CART` returns the state unchanged. -/
theorem fallback_reducer_cart_invariant :
    (∀ acts : List Action,
      cartInvariant (acts.foldl fallbackReducer initialFallbackState)) ∧
    (∀ (s : AppState) (a : Action), a.type ≠ "ADD_TO_CART" →
      fallbackReducer s a = s) := by
  constructor
  · intro acts
    suffices h : ∀ s : AppState, cartInvariant s →
        cartInvariant (acts.foldl fallbackReducer s) from
      h initialFallbackState ⟨rfl, rfl⟩
    induction acts with
    | nil => intro s hs; simpa using hs
    | cons a as ih =>
      intro s hs
      simpa using ih (fallbackReducer s a)
        (fallbackReducer_preserves_cartInvariant s a hs)
  · intro s a ht
    unfold fallbackReducer
    rw [if_neg ht]

/-- C10 witness: the invariant holds after dispatching the add-to-cart
action twice from the default initial state, and a `PING` action leaves a
state unchanged. -/
theorem fallback_reducer_cart_invariant_witness :
    cartInvariant ([addX, addX].foldl fallbackReducer initialFallbackState) ∧
    (otherAct.type ≠ "ADD_TO_CART" ∧
     fallbackReducer initialFallbackState otherAct = initialFallbackState) :=
  ⟨fallback_reducer_cart_invariant.1 [addX, addX],
   by decide,
   fallback_reducer_cart_invariant.2 initialFallbackState otherAct (by decide)⟩

end Micorreact
